import Mathlib

/-!
Shallow embedding of the EC2 service of the Nimbus console and hook layer.

The definitions below translate the TypeScript source files
(ec2-service.ts, the TanStack Query hook module, and the auth context
provider).  JavaScript objects become Lean structures, optional or
possibly-undefined fields become `Option`, JavaScript string truthiness
is made explicit through `truthyStr`, `Record` objects keyed by strings
become insertion-ordered association lists, and JavaScript numbers used
for money become exact rationals.  Network effects are modelled by
passing the remote response (or a response-producing oracle) as an
explicit argument, together with a count of issued requests where a
claim depends on whether a call happens.
-/

namespace Nimbus

/-- JavaScript truthiness for an optional string field: `undefined` and the
empty string are falsy, every other string is kept. -/
def truthyStr : Option String → Option String
  | some s => if s = "" then none else some s
  | none => none

/-- Assignment `obj[k] = v` on a string-keyed JavaScript record modelled as an
insertion-ordered association list: an existing key is updated in place,
a new key is appended. -/
def recordSet : List (String × String) → String → String → List (String × String)
  | [], k, v => [(k, v)]
  | (k₀, v₀) :: rest, k, v =>
    if k₀ = k then (k₀, v) :: rest else (k₀, v₀) :: recordSet rest k v

/-- The counting update `obj[k] = (obj[k] || 0) + 1` on a numeric JavaScript
record modelled as an insertion-ordered association list. -/
def bump : List (String × Nat) → String → List (String × Nat)
  | [], k => [(k, 1)]
  | (k₀, v₀) :: rest, k =>
    if k₀ = k then (k₀, v₀ + 1) :: rest else (k₀, v₀) :: bump rest k

/-- Sum of the values of a numeric JavaScript record. -/
def sumVals (m : List (String × Nat)) : Nat := (m.map Prod.snd).sum

/-! ### Wire-level shapes of the compute API responses -/

/-- Wire tag entry: both fields may be absent. -/
structure AwsTag where
  Key : Option String
  Value : Option String
deriving DecidableEq

/-- Wire instance state object; only the Name field is consumed. -/
structure AwsInstanceState where
  Name : Option String
deriving DecidableEq

/-- Wire security-group entry. -/
structure AwsSecurityGroup where
  GroupName : Option String
  GroupId : Option String
deriving DecidableEq

/-- Wire placement object; only the availability zone is consumed. -/
structure AwsPlacement where
  AvailabilityZone : Option String
deriving DecidableEq

/-- Wire-level instance record as delivered inside a reservation.  Dates are
epoch milliseconds. -/
structure AwsInstance where
  InstanceId : Option String
  State : Option AwsInstanceState
  Tags : Option (List AwsTag)
  SecurityGroups : Option (List AwsSecurityGroup)
  InstanceType : Option String
  PublicIpAddress : Option String
  PrivateIpAddress : Option String
  Placement : Option AwsPlacement
  KeyName : Option String
  LaunchTime : Option Nat
  VpcId : Option String
  SubnetId : Option String
deriving DecidableEq

/-- Wire reservation: a possibly absent list of instances. -/
structure AwsReservation where
  Instances : Option (List AwsInstance)
deriving DecidableEq

/-- Response shape of the describe-instances operation. -/
structure DescribeInstancesResponse where
  Reservations : Option (List AwsReservation)
deriving DecidableEq

/-- Wire status summary; only the Status string is consumed. -/
structure AwsStatusSummary where
  Status : Option String
deriving DecidableEq

/-- Wire per-instance status record. -/
structure AwsInstanceStatusRecord where
  InstanceId : Option String
  InstanceState : Option AwsInstanceState
  SystemStatus : Option AwsStatusSummary
  InstanceStatus : Option AwsStatusSummary
deriving DecidableEq

/-- Response shape of the describe-instance-status operation. -/
structure DescribeInstanceStatusResponse where
  InstanceStatuses : Option (List AwsInstanceStatusRecord)
deriving DecidableEq

/-! ### Internal domain types (ec2-types.ts) -/

/-- VPC information attached to a transformed instance. -/
structure VpcInfo where
  id : String
  subnetId : String
deriving DecidableEq

/-- Simplified EC2 instance representation used by the UI layer.  The state
field carries the wire state name (the TypeScript union of six state names
is a string at runtime and the cast in transformInstance is unchecked). -/
structure EC2Instance where
  id : String
  name : String
  instanceType : String
  state : String
  publicIp : Option String
  privateIp : String
  availabilityZone : String
  securityGroups : List String
  keyName : Option String
  launchTime : Nat
  tags : List (String × String)
  vpc : Option VpcInfo
deriving DecidableEq

/-- Aggregated dashboard statistics.  estimatedMonthlyCost is a JavaScript
number holding a sum of fixed two-decimal prices, modelled as an exact
rational. -/
structure EC2Stats where
  runningInstances : Nat
  stoppedInstances : Nat
  totalInstances : Nat
  totalVCPUs : Nat
  estimatedMonthlyCost : ℚ
  instancesByType : List (String × Nat)
  instancesByRegion : List (String × Nat)
deriving DecidableEq

/-- Health-check status entry produced by getInstanceStatuses.  The nested
statusChecks object is flattened into the two boolean fields. -/
structure EC2InstanceStatus where
  instanceId : String
  instanceState : String
  systemStatus : String
  instanceStatus : String
  checksSystem : Bool
  checksInstance : Bool
deriving DecidableEq

/-- The four instance actions. -/
inductive EC2Action where
  | start
  | stop
  | reboot
  | terminate
deriving DecidableEq

/-- String form of an action, as used in messages. -/
def actionStr : EC2Action → String
  | .start => "start"
  | .stop => "stop"
  | .reboot => "reboot"
  | .terminate => "terminate"

/-- Action request passed to performInstanceAction. -/
structure EC2InstanceActionRequest where
  instanceId : String
  action : EC2Action
  force : Option Bool
deriving DecidableEq

/-- Action result returned by performInstanceAction. -/
structure EC2InstanceActionResponse where
  instanceId : String
  action : EC2Action
  success : Bool
  previousState : Option String
  currentState : Option String
  message : Option String
  error : Option String
deriving DecidableEq

/-- Raw transport error as thrown by the SDK: a name, a message and the HTTP
status code from response metadata, each possibly absent. -/
structure TransportError where
  name : Option String
  message : Option String
  httpStatusCode : Option Nat
deriving DecidableEq

/-- Structured service error produced by handleError. -/
structure EC2ServiceError where
  code : String
  message : String
  retryable : Bool
  statusCode : Option Nat
deriving DecidableEq

/-! ### EC2Service: transformInstance and describeInstances -/

/-- Translation of EC2Service.transformInstance.  Returns none when the wire
record lacks a truthy InstanceId or a truthy State.Name; the nowMs argument
models the current time used for the LaunchTime fallback. -/
def transformInstance (nowMs : Nat) (inst : AwsInstance) : Option EC2Instance :=
  match truthyStr inst.InstanceId, truthyStr (inst.State.bind AwsInstanceState.Name) with
  | some instanceId, some stateName =>
    let nameTag := (inst.Tags.getD []).find? fun tag => tag.Key == some "Name"
    let name :=
      match nameTag with
      | some tag => (truthyStr tag.Value).getD instanceId
      | none => instanceId
    let tags :=
      (inst.Tags.getD []).foldl
        (fun acc tag =>
          match truthyStr tag.Key, truthyStr tag.Value with
          | some k, some v => recordSet acc k v
          | _, _ => acc)
        []
    let securityGroups :=
      (inst.SecurityGroups.getD []).map fun sg =>
        match truthyStr sg.GroupName with
        | some n => n
        | none => (truthyStr sg.GroupId).getD ""
    some
      { id := instanceId
        name := name
        instanceType := (truthyStr inst.InstanceType).getD "unknown"
        state := stateName
        publicIp := inst.PublicIpAddress
        privateIp := (truthyStr inst.PrivateIpAddress).getD ""
        availabilityZone := (truthyStr (inst.Placement.bind AwsPlacement.AvailabilityZone)).getD ""
        securityGroups := securityGroups
        keyName := inst.KeyName
        launchTime := inst.LaunchTime.getD nowMs
        tags := tags
        vpc :=
          match truthyStr inst.VpcId with
          | some v => some { id := v, subnetId := (truthyStr inst.SubnetId).getD "" }
          | none => none }
  | _, _ => none

/-- Translation of the response-flattening part of EC2Service.describeInstances:
the nested reservation loop collects, in order, every instance that
transformInstance keeps. -/
def describeInstances (nowMs : Nat) (response : DescribeInstancesResponse) : List EC2Instance :=
  (response.Reservations.getD []).flatMap fun reservation =>
    (reservation.Instances.getD []).filterMap (transformInstance nowMs)

/-! ### EC2Service: instance statuses -/

/-- Translation of the response-processing loop of EC2Service.getInstanceStatuses. -/
def instanceStatusesOf (response : DescribeInstanceStatusResponse) : List EC2InstanceStatus :=
  (response.InstanceStatuses.getD []).filterMap fun status =>
    match truthyStr status.InstanceId, truthyStr (status.InstanceState.bind AwsInstanceState.Name) with
    | some instanceId, some stateName =>
      some
        { instanceId := instanceId
          instanceState := stateName
          systemStatus := (truthyStr (status.SystemStatus.bind AwsStatusSummary.Status)).getD "not-applicable"
          instanceStatus := (truthyStr (status.InstanceStatus.bind AwsStatusSummary.Status)).getD "not-applicable"
          checksSystem := status.SystemStatus.bind AwsStatusSummary.Status == some "ok"
          checksInstance := status.InstanceStatus.bind AwsStatusSummary.Status == some "ok" }
    | _, _ => none

/-- Translation of EC2Service.getInstanceStatuses: it builds the command from
the given ids and sends it unconditionally; the oracle net models the remote
endpoint and the second component counts the requests issued. -/
def getInstanceStatuses (instanceIds : List String)
    (net : List String → DescribeInstanceStatusResponse) :
    List EC2InstanceStatus × Nat :=
  (instanceStatusesOf (net instanceIds), 1)

/-! ### EC2Service: estimators and statistics -/

/-- Hardcoded vCPU lookup table of EC2Service.estimateVCPUs. -/
def vcpuMap : List (String × Nat) :=
  [("t2.nano", 1), ("t2.micro", 1), ("t2.small", 1), ("t2.medium", 2), ("t2.large", 2),
   ("t3.nano", 2), ("t3.micro", 2), ("t3.small", 2), ("t3.medium", 2), ("t3.large", 2),
   ("m5.large", 2), ("m5.xlarge", 4), ("m5.2xlarge", 8), ("m5.4xlarge", 16),
   ("c5.large", 2), ("c5.xlarge", 4), ("c5.2xlarge", 8), ("c5.4xlarge", 16)]

/-- Translation of EC2Service.estimateVCPUs; no table entry is zero, so the
JavaScript falsy fallback coincides with the missing-key fallback. -/
def estimateVCPUs (instanceType : String) : Nat :=
  match List.lookup instanceType vcpuMap with
  | some v => v
  | none => 2

/-- Hardcoded monthly price lookup table of EC2Service.estimateMonthlyCost. -/
def priceMap : List (String × ℚ) :=
  [("t2.nano", 4.18), ("t2.micro", 8.35), ("t2.small", 16.7), ("t2.medium", 33.41),
   ("t2.large", 66.82), ("t3.nano", 3.8), ("t3.micro", 7.59), ("t3.small", 15.18),
   ("t3.medium", 30.37), ("t3.large", 60.74), ("m5.large", 69.35), ("m5.xlarge", 138.7),
   ("m5.2xlarge", 277.4), ("m5.4xlarge", 554.8), ("c5.large", 61.32), ("c5.xlarge", 122.64),
   ("c5.2xlarge", 245.28), ("c5.4xlarge", 490.56)]

/-- Translation of EC2Service.estimateMonthlyCost; no table entry is zero, so
the JavaScript falsy fallback coincides with the missing-key fallback. -/
def estimateMonthlyCost (instanceType : String) : ℚ :=
  match List.lookup instanceType priceMap with
  | some v => v
  | none => 50

/-- Region inferred from an availability zone by dropping the final character,
the slice used in getInstanceStats. -/
def regionOfAZ (availabilityZone : String) : String := availabilityZone.dropRight 1

/-- One iteration of the statistics accumulation loop of
EC2Service.getInstanceStats. -/
def statsStep (stats : EC2Stats) (inst : EC2Instance) : EC2Stats :=
  let s1 :=
    if inst.state == "running" then
      { stats with runningInstances := stats.runningInstances + 1 }
    else if inst.state == "stopped" then
      { stats with stoppedInstances := stats.stoppedInstances + 1 }
    else stats
  let s2 := { s1 with instancesByType := bump s1.instancesByType inst.instanceType }
  let s3 := { s2 with instancesByRegion := bump s2.instancesByRegion (regionOfAZ inst.availabilityZone) }
  let s4 := { s3 with totalVCPUs := s3.totalVCPUs + estimateVCPUs inst.instanceType }
  if inst.state == "running" then
    { s4 with estimatedMonthlyCost := s4.estimatedMonthlyCost + estimateMonthlyCost inst.instanceType }
  else s4

/-- Initial statistics record of EC2Service.getInstanceStats, with the total
set to the collection length up front as in the source. -/
def initStats (total : Nat) : EC2Stats :=
  { runningInstances := 0
    stoppedInstances := 0
    totalInstances := total
    totalVCPUs := 0
    estimatedMonthlyCost := 0
    instancesByType := []
    instancesByRegion := [] }

/-- Statistics accumulation of EC2Service.getInstanceStats applied to an
already fetched collection. -/
def getInstanceStatsFrom (instances : List EC2Instance) : EC2Stats :=
  instances.foldl statsStep (initStats instances.length)

/-- Modelled from the spec: the hooks invoke a service method
calculateStatsFromInstances that is not present in the service source under
src (only its call sites are); the spec describes DerivedStats as a single
pure reducer over a ResourceCollection, which is exactly the getInstanceStats
accumulation loop, so the missing method is modelled as that loop. -/
def calculateStatsFromInstances (instances : List EC2Instance) : EC2Stats :=
  getInstanceStatsFrom instances

/-! ### EC2Service: error classification -/

/-- Translation of EC2Service.handleError: derives the structured error and
marks it retryable exactly for the two throttling codes and HTTP statuses
429 and 503. -/
def handleError (error : TransportError) (operation : String) : EC2ServiceError :=
  let code := (truthyStr error.name).getD "UnknownError"
  let baseMessage := (truthyStr error.message).getD "An unknown error occurred"
  let retryable : Bool :=
    error.name == some "ThrottlingException" ||
    error.name == some "RequestLimitExceeded" ||
    error.httpStatusCode == some 429 ||
    error.httpStatusCode == some 503
  { code := code
    message := operation ++ ": " ++ baseMessage
    retryable := retryable
    statusCode := error.httpStatusCode }

/-! ### EC2Service: performInstanceAction -/

/-- Outcomes of the three awaited steps inside performInstanceAction: the
describe call before the action, the action command itself, and the describe
call after it.  An error value models the corresponding await throwing. -/
structure PerformActionWorld where
  describeBefore : Except TransportError (List EC2Instance)
  sendResult : Except TransportError Unit
  describeAfter : Except TransportError (List EC2Instance)

/-- Failure response built in the catch block of performInstanceAction. -/
def actionFailureResponse (request : EC2InstanceActionRequest) (e : TransportError) :
    EC2InstanceActionResponse :=
  { instanceId := request.instanceId
    action := request.action
    success := false
    previousState := none
    currentState := none
    message := none
    error := some (handleError e ("performInstanceAction:" ++ actionStr request.action)).message }

/-- Translation of EC2Service.performInstanceAction: capture the target state
from a describe call before the action, send the action command, capture the
state again afterwards, and report both states on success; any throwing step
aborts into the failure response. -/
def performInstanceAction (request : EC2InstanceActionRequest) (w : PerformActionWorld) :
    EC2InstanceActionResponse :=
  match w.describeBefore with
  | .error e => actionFailureResponse request e
  | .ok instances =>
    let targetInstance := instances.find? fun i => i.id == request.instanceId
    let previousState := targetInstance.map EC2Instance.state
    match w.sendResult with
    | .error e => actionFailureResponse request e
    | .ok _ =>
      match w.describeAfter with
      | .error e => actionFailureResponse request e
      | .ok updatedInstances =>
        let updatedInstance := updatedInstances.find? fun i => i.id == request.instanceId
        let currentState := updatedInstance.map EC2Instance.state
        { instanceId := request.instanceId
          action := request.action
          success := true
          previousState := previousState
          currentState := currentState
          message := some ("Instance " ++ actionStr request.action ++ " operation completed successfully")
          error := none }

/-! ### Query hooks: listing sort -/

/-- Display name used by the sort in the useEC2Instances select callback:
the expression a.name or a.id with JavaScript falsy fallback. -/
def displayName (inst : EC2Instance) : String :=
  if inst.name = "" then inst.id else inst.name

/-- Comparator of the select callback, nameA.localeCompare(nameB) at most
zero.  localeCompare is a runtime primitive; it is modelled by the ordinal
string order, and on identical strings every locale yields zero, which is
the only fact the tie-breaking results rely on. -/
def nameLe (a b : EC2Instance) : Prop := displayName a ≤ displayName b

instance : DecidableRel nameLe := fun a b =>
  decidable_of_iff (displayName a ≤ displayName b) Iff.rfl

instance : IsTotal EC2Instance nameLe :=
  ⟨fun a b => le_total (displayName a) (displayName b)⟩

instance : IsTrans EC2Instance nameLe :=
  ⟨fun _ _ _ hab hbc => le_trans hab hbc⟩

/-- Translation of the select callback of useEC2Instances and useEC2Data:
the fetched collection is sorted by display name with the stable runtime
sort before it is published. -/
def sortInstances (data : List EC2Instance) : List EC2Instance :=
  List.insertionSort nameLe data

/-! ### Query hooks: staleness configuration and stats queries -/

/-- staleTime of the instances query (30 seconds). -/
def instancesStaleTimeMs : Nat := 30000

/-- staleTime of the standalone stats query in useEC2Stats (1 minute). -/
def statsStaleTimeMs : Nat := 60000

/-- staleTime of the status query in useEC2InstanceStatus (15 seconds). -/
def statusStaleTimeMs : Nat := 15000

/-- Translation of the queryFn of useEC2Stats: when the caller passed an
instances list the stats are computed from it without any request; otherwise
getInstanceStats fetches a fresh collection through the net oracle and
reduces it.  The second component counts network requests. -/
def useEC2StatsQueryFn (instances : Option (List EC2Instance))
    (net : Unit → List EC2Instance) : EC2Stats × Nat :=
  match instances with
  | some l => (calculateStatsFromInstances l, 0)
  | none => (calculateStatsFromInstances (net ()), 1)

/-- The all-zero stats literal returned by the useMemo in useEC2Data when no
collection has been published yet. -/
def emptyStats : EC2Stats :=
  { runningInstances := 0
    stoppedInstances := 0
    totalInstances := 0
    totalVCPUs := 0
    estimatedMonthlyCost := 0
    instancesByType := []
    instancesByRegion := [] }

/-- Translation of the useMemo in useEC2Data: the published stats are derived
synchronously from the currently published instances collection. -/
def useEC2DataStats (instancesData : Option (List EC2Instance)) : EC2Stats :=
  match instancesData with
  | none => emptyStats
  | some data => calculateStatsFromInstances data

/-- Translation of the queryFn of useEC2InstanceStatus: an empty id list
returns immediately without touching the service; otherwise the service
method runs.  The second component counts network requests. -/
def useEC2InstanceStatusQueryFn (instanceIds : List String)
    (net : List String → DescribeInstanceStatusResponse) :
    List EC2InstanceStatus × Nat :=
  if instanceIds.length = 0 then ([], 0)
  else getInstanceStatuses instanceIds net

/-! ### Query hooks: caches as small state machines

The TanStack query cache holding the instances collection and, for the
standalone useEC2Stats hook, a separately keyed stats entry, is modelled as
explicit state updated by the resolution and write events the hook code
performs. -/

/-- Cache entries of the instances query and of the separately keyed stats
query used by the standalone useEC2Stats hook. -/
structure StatsCacheState where
  instancesData : Option (List EC2Instance)
  statsData : Option EC2Stats
deriving DecidableEq

/-- Resolution events of the two independent queries: each one fetched its
own collection from the remote endpoint at its own time. -/
inductive StatsCacheEvent where
  | instancesFetchResolved (fetched : List EC2Instance)
  | statsFetchResolved (fetched : List EC2Instance)
deriving DecidableEq

/-- One cache update: the instances query publishes its sorted result, the
stats query of useEC2Stats (called without an instances list) publishes the
reduction of its own freshly fetched collection. -/
def stepStatsCache (c : StatsCacheState) (e : StatsCacheEvent) : StatsCacheState :=
  match e with
  | .instancesFetchResolved fetched => { c with instancesData := some (sortInstances fetched) }
  | .statsFetchResolved fetched => { c with statsData := some (calculateStatsFromInstances fetched) }

/-- Cache state reached from the empty cache by a sequence of events. -/
def runStatsCache (events : List StatsCacheEvent) : StatsCacheState :=
  events.foldl stepStatsCache { instancesData := none, statsData := none }

/-- The property claimed of the cache: whenever both a stats value and a
collection are published, the stats are the pure reduction of that
collection. -/
def statsDerivedInvariant (c : StatsCacheState) : Prop :=
  ∀ s l, c.statsData = some s → c.instancesData = some l →
    s = calculateStatsFromInstances l

/-- Cache writes applied to the instances collection entry by the hook layer:
query resolution (sorted by the select callback), the optimistic map of a
onMutate step of a mutation, the reported-state map of onSuccess, and the snapshot
restore of onError. -/
inductive CollectionEvent where
  | fetchResolved (fetched : List EC2Instance)
  | optimisticUpdate (instanceId : String) (newState : String)
  | successUpdate (instanceId : String) (newState : String)
  | rollback (snapshot : List EC2Instance)
deriving DecidableEq

/-- One write to the instances cache entry.  The optimistic and success maps
run only when a collection is present, as guarded in the hooks. -/
def stepCollection (c : Option (List EC2Instance)) (e : CollectionEvent) :
    Option (List EC2Instance) :=
  match e with
  | .fetchResolved fetched => some (sortInstances fetched)
  | .optimisticUpdate instanceId newState =>
    c.map fun l => l.map fun i => if i.id = instanceId then { i with state := newState } else i
  | .successUpdate instanceId newState =>
    c.map fun l => l.map fun i => if i.id = instanceId then { i with state := newState } else i
  | .rollback snapshot => some snapshot

/-- Instances cache entry reached from the empty cache by a sequence of
writes. -/
def runCollectionCache (events : List CollectionEvent) : Option (List EC2Instance) :=
  events.foldl stepCollection none

/-! ### Mutation coordinator: useStopInstance -/

/-- Optimistic map of useStopInstance.onMutate: the targeted instance moves
to the stopping state, every other instance is untouched. -/
def stopOnMutate (previousInstances : List EC2Instance) (instanceId : String) :
    List EC2Instance :=
  previousInstances.map fun inst =>
    if inst.id = instanceId then { inst with state := "stopping" } else inst

/-- Rollback of useStopInstance.onError: when the onMutate context holds a
snapshot it is written back verbatim, otherwise the cache is left alone. -/
def stopOnError (context : Option (List EC2Instance))
    (cache : Option (List EC2Instance)) : Option (List EC2Instance) :=
  match context with
  | some prev => some prev
  | none => cache

/-- The two cache publications of a stop dispatch whose network call rejects,
in lifecycle order: first the value written by onMutate before the mutation
function resolves, then the value after onError ran against it. -/
def dispatchStopRejected (cache0 : Option (List EC2Instance)) (instanceId : String) :
    Option (List EC2Instance) × Option (List EC2Instance) :=
  let previousInstances := cache0
  let afterOnMutate :=
    match cache0 with
    | some prev => some (stopOnMutate prev instanceId)
    | none => cache0
  (afterOnMutate, stopOnError previousInstances afterOnMutate)

/-! ### Auth provider: the session storage token store -/

/-- Authentication tokens persisted by the provider; expiresAt is epoch
milliseconds. -/
structure AuthTokens where
  accessToken : String
  idToken : String
  refreshToken : String
  expiresAt : Nat
deriving DecidableEq

/-- Authenticated user profile persisted next to the tokens. -/
structure User where
  id : String
  email : String
  name : Option String
  picture : Option String
deriving DecidableEq

/-- A persisted string item as far as JSON.parse is concerned: either the
serialization of a value of the expected shape, or text whose parse throws. -/
inductive StoredBlob (α : Type) where
  | wellFormed (value : α)
  | malformed
deriving DecidableEq

/-- JSON.parse on a persisted item: none models the throwing case. -/
def parseBlob {α : Type} : StoredBlob α → Option α
  | .wellFormed v => some v
  | .malformed => none

/-- Session storage as used by the provider: the two items under the token
and user keys.  A missing item is none; a stored empty string is falsy in
the load guard and therefore behaves exactly like a missing item. -/
structure SessionStorage where
  tokensItem : Option (StoredBlob AuthTokens)
  userItem : Option (StoredBlob User)
deriving DecidableEq

/-- Translation of clearStoredAuth: both items are removed. -/
def clearStoredAuth (_st : SessionStorage) : SessionStorage :=
  { tokensItem := none, userItem := none }

/-- Translation of storeAuth: both items are overwritten with the
serializations of the given values. -/
def storeAuth (user : User) (tokens : AuthTokens) (_st : SessionStorage) : SessionStorage :=
  { tokensItem := some (.wellFormed tokens), userItem := some (.wellFormed user) }

/-- Translation of loadStoredAuth: returns the reconstructed session and the
storage left behind.  Both items must be present; a parse failure clears
storage (the catch block), an expired session clears storage, and a valid
one is returned with storage untouched. -/
def loadStoredAuth (nowMs : Nat) (st : SessionStorage) :
    Option (User × AuthTokens) × SessionStorage :=
  match st.tokensItem, st.userItem with
  | some storedTokens, some storedUser =>
    match parseBlob storedTokens, parseBlob storedUser with
    | some tokens, some user =>
      if nowMs < tokens.expiresAt then (some (user, tokens), st)
      else (none, clearStoredAuth st)
    | _, _ => (none, clearStoredAuth st)
  | _, _ => (none, st)

/-! ### Spec-side readings used to state the claims under test -/

/-- Reading of the claimed listing order: ascending by display name with ties
broken by id. -/
def specNameIdLe (a b : EC2Instance) : Prop :=
  displayName a < displayName b ∨ (displayName a = displayName b ∧ a.id ≤ b.id)

instance : DecidableRel specNameIdLe := fun a b =>
  decidable_of_iff
    (displayName a < displayName b ∨ (displayName a = displayName b ∧ a.id ≤ b.id))
    Iff.rfl

/-- The known throttling, capacity and transient codes named by the spec,
read off the retryable-code list the repository keeps in its error utilities. -/
def specKnownTransientCodes : List String :=
  ["ThrottlingException", "RequestLimitExceeded", "ServiceUnavailable",
   "InternalError", "RequestTimeout", "NetworkError"]

/-- The retryable HTTP statuses named by the claim. -/
def specRetryableStatusCodes : List Nat := [429, 500, 502, 503, 504]

/-- Reading of the claimed classification rule: retryable exactly when the
code is a known transient code or the status is in the claimed set. -/
def claimRetryableIff : Prop :=
  ∀ e op, (handleError e op).retryable = true ↔
    ((∃ c ∈ specKnownTransientCodes, e.name = some c) ∨
     (∃ s ∈ specRetryableStatusCodes, e.httpStatusCode = some s))

/-! ### Concrete fixtures used by witnesses and counterexamples -/

/-- A running instance as the UI layer sees it. -/
def iRun : EC2Instance :=
  { id := "i-0001"
    name := "app"
    instanceType := "t2.micro"
    state := "running"
    publicIp := none
    privateIp := "10.0.0.5"
    availabilityZone := "us-east-1a"
    securityGroups := []
    keyName := none
    launchTime := 0
    tags := [("Name", "app")]
    vpc := none }

/-- The same instance after it reached the stopped state. -/
def iStopped : EC2Instance := { iRun with state := "stopped" }

/-- An instance named web with the lexicographically larger id. -/
def instWebB : EC2Instance :=
  { id := "i-0b"
    name := "web"
    instanceType := "t3.micro"
    state := "running"
    publicIp := none
    privateIp := "10.0.0.2"
    availabilityZone := "us-east-1a"
    securityGroups := []
    keyName := none
    launchTime := 0
    tags := [("Name", "web")]
    vpc := none }

/-- An instance named web with the lexicographically smaller id. -/
def instWebA : EC2Instance := { instWebB with id := "i-0a", privateIp := "10.0.0.1" }

/-- A transport failure with HTTP status 500 and a code that is neither of
the two codes handleError recognizes nor any known transient code the
repository lists. -/
def err500 : TransportError :=
  { name := some "InternalFailure"
    message := some "Internal error"
    httpStatusCode := some 500 }

/-- A stop action request for the running fixture instance. -/
def reqStop0001 : EC2InstanceActionRequest :=
  { instanceId := "i-0001", action := .stop, force := none }

/-- A world in which all three awaited steps of performInstanceAction
succeed: the instance is running before the action and stopped after it. -/
def okWorld : PerformActionWorld :=
  { describeBefore := .ok [iRun], sendResult := .ok (), describeAfter := .ok [iStopped] }

/-- A wire record with an instance id but no state object. -/
def awsNoState : AwsInstance :=
  { InstanceId := some "i-9999"
    State := none
    Tags := none
    SecurityGroups := none
    InstanceType := none
    PublicIpAddress := none
    PrivateIpAddress := none
    Placement := none
    KeyName := none
    LaunchTime := none
    VpcId := none
    SubnetId := none }

/-- A describe-instance-status response carrying one status record. -/
def statusRespOne : DescribeInstanceStatusResponse :=
  { InstanceStatuses := some
      [{ InstanceId := some "i-0001"
         InstanceState := some { Name := some "running" }
         SystemStatus := some { Status := some "ok" }
         InstanceStatus := some { Status := some "ok" } }] }

/-- Remote endpoint that answers every describe-instance-status request with
one status record, as the remote does for an empty id list when
IncludeAllInstances is set. -/
def netStatusOne : List String → DescribeInstanceStatusResponse := fun _ => statusRespOne

/-- A persisted user profile. -/
def u0 : User := { id := "sub-1", email := "user@example.com", name := none, picture := none }

/-- Persisted tokens expiring at epoch millisecond 1000. -/
def t0 : AuthTokens :=
  { accessToken := "at", idToken := "it", refreshToken := "rt", expiresAt := 1000 }

/-- Session storage with no persisted items. -/
def emptyStorage : SessionStorage := { tokensItem := none, userItem := none }

/-! ### Helper lemmas about the statistics accumulation -/

/-- A truthy optional string is the underlying string, and it is non-empty. -/
theorem truthyStr_eq_some {o : Option String} {s : String}
    (h : truthyStr o = some s) : o = some s ∧ s ≠ "" := by
  cases o with
  | none => simp [truthyStr] at h
  | some v =>
    by_cases hv : v = ""
    · simp [truthyStr, hv] at h
    · simp only [truthyStr, hv, if_neg, ite_false, Option.some.injEq] at h
      exact ⟨by rw [h], h ▸ hv⟩

theorem bump_sumVals (m : List (String × Nat)) (k : String) :
    sumVals (bump m k) = sumVals m + 1 := by
  induction m with
  | nil => rfl
  | cons p rest ih =>
    by_cases h : p.1 = k
    · cases p; simp_all [bump, sumVals]; omega
    · cases p; simp_all [bump, sumVals]; omega

theorem statsStep_totalInstances (s : EC2Stats) (i : EC2Instance) :
    (statsStep s i).totalInstances = s.totalInstances := by
  unfold statsStep
  split_ifs <;> rfl

theorem statsStep_totalVCPUs (s : EC2Stats) (i : EC2Instance) :
    (statsStep s i).totalVCPUs = s.totalVCPUs + estimateVCPUs i.instanceType := by
  unfold statsStep
  split_ifs <;> rfl

theorem statsStep_cost (s : EC2Stats) (i : EC2Instance) :
    (statsStep s i).estimatedMonthlyCost = s.estimatedMonthlyCost +
      (if i.state == "running" then estimateMonthlyCost i.instanceType else 0) := by
  unfold statsStep
  split_ifs <;> simp_all

theorem statsStep_byType (s : EC2Stats) (i : EC2Instance) :
    (statsStep s i).instancesByType = bump s.instancesByType i.instanceType := by
  unfold statsStep
  split_ifs <;> rfl

theorem foldl_statsStep_totalInstances (l : List EC2Instance) :
    ∀ s : EC2Stats, (l.foldl statsStep s).totalInstances = s.totalInstances := by
  induction l with
  | nil => intro s; rfl
  | cons x xs ih => intro s; rw [List.foldl_cons, ih, statsStep_totalInstances]

theorem foldl_statsStep_totalVCPUs (l : List EC2Instance) :
    ∀ s : EC2Stats, (l.foldl statsStep s).totalVCPUs =
      s.totalVCPUs + ((l.map fun i => estimateVCPUs i.instanceType).sum) := by
  induction l with
  | nil => intro s; simp
  | cons x xs ih =>
    intro s
    rw [List.foldl_cons, ih, statsStep_totalVCPUs]
    simp [Nat.add_assoc]

theorem foldl_statsStep_cost (l : List EC2Instance) :
    ∀ s : EC2Stats, (l.foldl statsStep s).estimatedMonthlyCost =
      s.estimatedMonthlyCost +
        (((l.filter fun i => i.state == "running").map
          fun i => estimateMonthlyCost i.instanceType).sum) := by
  induction l with
  | nil => intro s; simp
  | cons x xs ih =>
    intro s
    rw [List.foldl_cons, ih, statsStep_cost]
    by_cases h : x.state == "running"
    · simp [List.filter_cons, h]
      ring
    · simp [List.filter_cons, h]

theorem foldl_statsStep_byType_sum (l : List EC2Instance) :
    ∀ s : EC2Stats, sumVals (l.foldl statsStep s).instancesByType =
      sumVals s.instancesByType + l.length := by
  induction l with
  | nil => intro s; simp
  | cons x xs ih =>
    intro s
    rw [List.foldl_cons, ih, statsStep_byType, bump_sumVals]
    simp [List.length_cons]
    omega

/-! ### Claim theorems -/

/-- C1: for a cached collection containing a resource R in state running,
dispatching the stop action on R.id publishes, before the network call
resolves, the optimistic collection in which R is in state stopping and
every instance with a different id is kept unchanged; and when the network
call rejects, the collection published after resolution is exactly the
pre-mutation snapshot, not a partial merge. -/
theorem useStopInstance_optimistic_rollback
    (prev : List EC2Instance) (R : EC2Instance)
    (hmem : R ∈ prev) (_hrun : R.state = "running") :
    (dispatchStopRejected (some prev) R.id).1 = some (stopOnMutate prev R.id) ∧
    { R with state := "stopping" } ∈ stopOnMutate prev R.id ∧
    (∀ i ∈ stopOnMutate prev R.id, i.id ≠ R.id → i ∈ prev) ∧
    (dispatchStopRejected (some prev) R.id).2 = some prev := by
  refine ⟨rfl, ?_, ?_, rfl⟩
  · have hR : ({ R with state := "stopping" } : EC2Instance) =
        (fun inst => if inst.id = R.id then { inst with state := "stopping" } else inst) R := by
      simp
    rw [stopOnMutate, hR]
    exact List.mem_map_of_mem _ hmem
  · intro i hi hne
    simp only [stopOnMutate, List.mem_map] at hi
    obtain ⟨j, hj, hji⟩ := hi
    by_cases h : j.id = R.id
    · rw [if_pos h] at hji
      exact absurd (by rw [← hji]; exact h) hne
    · rw [if_neg h] at hji
      exact hji ▸ hj

/-- Witness for C1 at a one-element collection holding the running fixture
instance. -/
theorem useStopInstance_optimistic_rollback_witness :
    (dispatchStopRejected (some [iRun]) iRun.id).1 = some (stopOnMutate [iRun] iRun.id) ∧
    { iRun with state := "stopping" } ∈ stopOnMutate [iRun] iRun.id ∧
    (∀ i ∈ stopOnMutate [iRun] iRun.id, i.id ≠ iRun.id → i ∈ [iRun]) ∧
    (dispatchStopRejected (some [iRun]) iRun.id).2 = some [iRun] :=
  useStopInstance_optimistic_rollback [iRun] iRun (List.mem_singleton.mpr rfl) rfl

/-- C2 counterexample: a transport failure with HTTP status 500 and an
unrecognized code is classified non-retryable by handleError, although the
claimed classification rule requires status 500 to be retryable; hence the
claimed rule is false of handleError. -/
theorem handleError_httpStatus500_not_retryable :
    (handleError err500 "describeInstances").retryable = false ∧
    err500.httpStatusCode = some 500 ∧
    500 ∈ specRetryableStatusCodes ∧
    ¬ claimRetryableIff := by
  refine ⟨rfl, rfl, by decide, ?_⟩
  intro h
  have h2 := (h err500 "describeInstances").mpr (Or.inr ⟨500, by decide, rfl⟩)
  exact absurd h2 (by decide)

/-- C2 amended: handleError derives the structured error carrying the code,
the operation-prefixed message, the retryable flag and the HTTP status, and
classifies retryable exactly when the code is ThrottlingException or
RequestLimitExceeded, or the HTTP status is 429 or 503 (so a 503 failure is
retryable and a 403 failure with any other code is not). -/
theorem handleError_retryable_iff (e : TransportError) (op : String) :
    ((handleError e op).retryable = true ↔
      (e.name = some "ThrottlingException" ∨ e.name = some "RequestLimitExceeded" ∨
       e.httpStatusCode = some 429 ∨ e.httpStatusCode = some 503)) ∧
    (handleError e op).statusCode = e.httpStatusCode ∧
    (handleError e op).code = (truthyStr e.name).getD "UnknownError" ∧
    (handleError e op).message = op ++ ": " ++ (truthyStr e.message).getD "An unknown error occurred" := by
  refine ⟨?_, rfl, rfl, rfl⟩
  simp [handleError, or_assoc]

/-- C4: performInstanceAction reports the state captured by the describe
call immediately before the action command and the state captured by the
describe call immediately after it, in a successful two-state result,
whenever none of the awaited steps throws — irrespective of what the action
achieved semantically; and any throwing step aborts into a failure result
with no states. -/
theorem performInstanceAction_two_state :
    (∀ (req : EC2InstanceActionRequest) (w : PerformActionWorld) (lb la : List EC2Instance),
      w.describeBefore = .ok lb → w.sendResult = .ok () → w.describeAfter = .ok la →
      (performInstanceAction req w).success = true ∧
      (performInstanceAction req w).previousState =
        ((lb.find? fun i => i.id == req.instanceId).map EC2Instance.state) ∧
      (performInstanceAction req w).currentState =
        ((la.find? fun i => i.id == req.instanceId).map EC2Instance.state) ∧
      (performInstanceAction req w).error = none) ∧
    (∀ (req : EC2InstanceActionRequest) (w : PerformActionWorld) (e : TransportError),
      (w.describeBefore = .error e ∨ w.sendResult = .error e ∨ w.describeAfter = .error e) →
      (performInstanceAction req w).success = false ∧
      (performInstanceAction req w).previousState = none ∧
      (performInstanceAction req w).currentState = none) := by
  constructor
  · rintro req ⟨db, sr, da⟩ lb la h1 h2 h3
    simp only at h1 h2 h3
    subst h1 h2 h3
    simp [performInstanceAction]
  · rintro req ⟨db, sr, da⟩ e h
    rcases db with e1 | lb <;> rcases sr with e2 | u <;> rcases da with e3 | la <;>
      simp_all [performInstanceAction, actionFailureResponse]

/-- Witness for C4: stopping the running fixture instance in a world where
all three steps succeed yields a successful result reporting previousState
running and currentState stopped. -/
theorem performInstanceAction_two_state_witness :
    ((performInstanceAction reqStop0001 okWorld).success = true ∧
     (performInstanceAction reqStop0001 okWorld).previousState =
       (([iRun].find? fun i => i.id == reqStop0001.instanceId).map EC2Instance.state) ∧
     (performInstanceAction reqStop0001 okWorld).currentState =
       (([iStopped].find? fun i => i.id == reqStop0001.instanceId).map EC2Instance.state) ∧
     (performInstanceAction reqStop0001 okWorld).error = none) ∧
    (performInstanceAction reqStop0001 okWorld).previousState = some "running" ∧
    (performInstanceAction reqStop0001 okWorld).currentState = some "stopped" :=
  ⟨performInstanceAction_two_state.1 reqStop0001 okWorld [iRun] [iStopped] rfl rfl rfl,
   by decide, by decide⟩

/-- C5 counterexample: two instances sharing the display name web, stored
with the larger id first, are published in unchanged order by the select
sort — the comparator returns zero on equal names and the sort is stable —
so the published order is not sorted by name with ties broken by id. -/
theorem sortInstances_tie_counterexample :
    sortInstances [instWebB, instWebA] = [instWebB, instWebA] ∧
    ¬ List.Sorted specNameIdLe (sortInstances [instWebB, instWebA]) := by
  have hle : nameLe instWebB instWebA :=
    le_of_eq (rfl : displayName instWebB = displayName instWebA)
  have hsort : sortInstances [instWebB, instWebA] = [instWebB, instWebA] := by
    show List.orderedInsert nameLe instWebB (List.insertionSort nameLe [instWebA]) =
      [instWebB, instWebA]
    rw [show List.insertionSort nameLe [instWebA] = [instWebA] from rfl]
    simp only [List.orderedInsert]
    rw [if_pos hle]
  refine ⟨hsort, ?_⟩
  rw [hsort]
  intro h
  have h2 : specNameIdLe instWebB instWebA :=
    (List.sorted_cons.mp h).1 instWebA (by simp)
  have hids : ("i-0a" : String) < "i-0b" := by
    rw [String.lt_iff_toList_lt]
    decide
  rcases h2 with hlt | ⟨_, hid⟩
  · exact lt_irrefl ("web" : String) hlt
  · exact absurd (hid : ("i-0b" : String) ≤ "i-0a") (not_le.mpr hids)

/-- C5 amended: every published listing is sorted ascending by display name
(name tag when present, otherwise id) under the string comparator, is a
permutation of the fetched collection, and the sort is deterministic,
re-applied on every cache update and idempotent; instances with equal
display names keep their previous order (stable sort) instead of being
tie-broken by id. -/
theorem sortInstances_sorted_idempotent (data : List EC2Instance) :
    List.Sorted nameLe (sortInstances data) ∧
    sortInstances (sortInstances data) = sortInstances data ∧
    List.Perm (sortInstances data) data :=
  ⟨List.sorted_insertionSort nameLe data,
   (List.sorted_insertionSort nameLe data).insertionSort_eq,
   List.perm_insertionSort nameLe data⟩

/-- C6: the statistics reduction is a pure function of the collection whose
per-type counts sum to the total instance count; flattening an empty
reservation set yields the empty listing; and the statistics of the empty
collection are all-zero counts with zero estimated cost. -/
theorem getInstanceStats_totals :
    (∀ instances : List EC2Instance,
      sumVals (getInstanceStatsFrom instances).instancesByType =
        (getInstanceStatsFrom instances).totalInstances ∧
      (getInstanceStatsFrom instances).totalInstances = instances.length) ∧
    (∀ nowMs, describeInstances nowMs { Reservations := some [] } = []) ∧
    getInstanceStatsFrom [] = emptyStats := by
  refine ⟨?_, fun _ => rfl, rfl⟩
  intro instances
  constructor
  · rw [getInstanceStatsFrom, foldl_statsStep_byType_sum, foldl_statsStep_totalInstances]
    simp [initStats, sumVals]
  · rw [getInstanceStatsFrom, foldl_statsStep_totalInstances]
    rfl

/-- C7 counterexample: the service method getInstanceStatuses issues its
network request even for the empty id list, and because the command sets
IncludeAllInstances the remote may answer with statuses, so the result is
neither computed without a call nor necessarily empty. -/
theorem getInstanceStatuses_empty_counterexample :
    (getInstanceStatuses [] netStatusOne).2 = 1 ∧
    (getInstanceStatuses [] netStatusOne).1 ≠ [] := by
  exact ⟨rfl, by decide⟩

/-- C7 amended: the empty-input guard lives in the useEC2InstanceStatus
queryFn, which returns the empty list without invoking the service when the
id list is empty; for a non-empty id list it delegates to the service
method, which always issues exactly one request. -/
theorem useEC2InstanceStatus_empty_guard :
    (∀ net, useEC2InstanceStatusQueryFn [] net = ([], 0)) ∧
    (∀ ids net, ids ≠ [] → useEC2InstanceStatusQueryFn ids net = getInstanceStatuses ids net) ∧
    (∀ ids net, (getInstanceStatuses ids net).2 = 1) := by
  refine ⟨fun _ => rfl, ?_, fun _ _ => rfl⟩
  intro ids net h
  rw [useEC2InstanceStatusQueryFn, if_neg]
  simpa [List.length_eq_zero] using h

/-- Witness for C7 amended at a non-empty id list. -/
theorem useEC2InstanceStatus_empty_guard_witness :
    (["i-0001"] : List String) ≠ [] ∧
    useEC2InstanceStatusQueryFn ["i-0001"] netStatusOne =
      getInstanceStatuses ["i-0001"] netStatusOne :=
  ⟨by decide, useEC2InstanceStatus_empty_guard.2.1 ["i-0001"] netStatusOne (by decide)⟩

/-- C3 counterexample: the standalone useEC2Stats hook, called without an
instances list, fetches and caches its stats under a separate key with its
own staleness; a reachable cache state publishes an empty collection next
to stats of one instance, so the published stats are not the pure stats
function of the published collection, and the stats staleness (60s) differs
from the collection staleness (30s). -/
theorem statsQuery_independent_counterexample :
    ¬ statsDerivedInvariant (runStatsCache
      [StatsCacheEvent.instancesFetchResolved [],
       StatsCacheEvent.statsFetchResolved [iRun]]) ∧
    statsStaleTimeMs ≠ instancesStaleTimeMs := by
  refine ⟨?_, by decide⟩
  intro h
  have h2 : calculateStatsFromInstances [iRun] = calculateStatsFromInstances [] :=
    h (calculateStatsFromInstances [iRun]) [] rfl rfl
  have h3 : (1 : Nat) = 0 := congrArg EC2Stats.totalInstances h2
  exact absurd h3 one_ne_zero

/-- C3 amended: in useEC2Data the published stats are recomputed
synchronously by the pure stats reduction from whatever collection the
cache currently publishes (all-zero before any publication), across
fetch resolutions, optimistic updates, success updates and rollbacks; and
useEC2Stats invoked with an instances list reduces it purely without a
request.  Only the standalone useEC2Stats hook without an instances list
fetches stats independently, as the counterexample records. -/
theorem useEC2Data_stats_derived :
    (∀ (events : List CollectionEvent) (l : List EC2Instance),
      runCollectionCache events = some l →
      useEC2DataStats (runCollectionCache events) = calculateStatsFromInstances l) ∧
    useEC2DataStats none = emptyStats ∧
    (∀ l net, useEC2StatsQueryFn (some l) net = (calculateStatsFromInstances l, 0)) := by
  refine ⟨?_, rfl, fun _ _ => rfl⟩
  intro events l h
  rw [h]
  rfl

/-- Witness for C3 amended: after one fetch resolution the published stats
are the reduction of the published one-instance collection. -/
theorem useEC2Data_stats_derived_witness :
    runCollectionCache [CollectionEvent.fetchResolved [iRun]] = some [iRun] ∧
    useEC2DataStats (runCollectionCache [CollectionEvent.fetchResolved [iRun]]) =
      calculateStatsFromInstances [iRun] :=
  ⟨rfl, useEC2Data_stats_derived.1 [CollectionEvent.fetchResolved [iRun]] [iRun] rfl⟩

/-- C8: loading the stored session yields nothing when an item is absent
(storage untouched), when an item is malformed (storage purged), or when
the session is expired (storage purged); and saving a session and loading
it within the validity window returns precisely that session with storage
untouched. -/
theorem loadStoredAuth_contract :
    (∀ (nowMs : Nat) (st : SessionStorage),
      st.tokensItem = none ∨ st.userItem = none →
      loadStoredAuth nowMs st = (none, st)) ∧
    (∀ (nowMs : Nat) (st : SessionStorage) (tb : StoredBlob AuthTokens) (ub : StoredBlob User),
      st.tokensItem = some tb → st.userItem = some ub →
      parseBlob tb = none ∨ parseBlob ub = none →
      loadStoredAuth nowMs st = (none, clearStoredAuth st)) ∧
    (∀ (nowMs : Nat) (st : SessionStorage) (tokens : AuthTokens) (user : User),
      st.tokensItem = some (StoredBlob.wellFormed tokens) →
      st.userItem = some (StoredBlob.wellFormed user) →
      tokens.expiresAt ≤ nowMs →
      loadStoredAuth nowMs st = (none, clearStoredAuth st)) ∧
    (∀ (nowMs : Nat) (st : SessionStorage) (user : User) (tokens : AuthTokens),
      nowMs < tokens.expiresAt →
      loadStoredAuth nowMs (storeAuth user tokens st) =
        (some (user, tokens), storeAuth user tokens st)) := by
  refine ⟨?_, ?_, ?_, ?_⟩
  · rintro nowMs ⟨ti, ui⟩ h
    rcases h with h | h
    · simp only at h
      subst h
      cases ui <;> rfl
    · simp only at h
      subst h
      cases ti <;> rfl
  · rintro nowMs ⟨ti, ui⟩ tb ub h1 h2 h3
    simp only at h1 h2
    subst h1 h2
    cases tb <;> cases ub <;> simp_all [parseBlob, loadStoredAuth]
  · rintro nowMs ⟨ti, ui⟩ tokens user h1 h2 h3
    simp only at h1 h2
    subst h1 h2
    simp [loadStoredAuth, parseBlob, Nat.not_lt.mpr h3]
  · intro nowMs st user tokens h
    simp [loadStoredAuth, storeAuth, parseBlob, h]

/-- Witness for C8: a save followed by a load before expiry returns the
saved session, and a load after expiry clears storage. -/
theorem loadStoredAuth_contract_witness :
    (0 < t0.expiresAt ∧
     loadStoredAuth 0 (storeAuth u0 t0 emptyStorage) =
       (some (u0, t0), storeAuth u0 t0 emptyStorage)) ∧
    (t0.expiresAt ≤ 5000 ∧
     loadStoredAuth 5000 (storeAuth u0 t0 emptyStorage) =
       (none, clearStoredAuth (storeAuth u0 t0 emptyStorage))) :=
  ⟨⟨by decide, loadStoredAuth_contract.2.2.2 0 emptyStorage u0 t0 (by decide)⟩,
   ⟨by decide, loadStoredAuth_contract.2.2.1 5000 (storeAuth u0 t0 emptyStorage) t0 u0
      rfl rfl (by decide)⟩⟩

/-- C9: transformInstance drops a wire record that lacks a truthy instance
id or lacks a truthy state name — either missing field suffices — and every
record it keeps carries the non-empty wire id and the non-empty wire state
name, so every resource in a flattened listing has a non-empty id and
state. -/
theorem transformInstance_guard :
    (∀ (nowMs : Nat) (inst : AwsInstance),
      truthyStr inst.InstanceId = none ∨
        truthyStr (inst.State.bind AwsInstanceState.Name) = none →
      transformInstance nowMs inst = none) ∧
    (∀ (nowMs : Nat) (inst : AwsInstance) (r : EC2Instance),
      transformInstance nowMs inst = some r →
      r.id ≠ "" ∧ inst.InstanceId = some r.id ∧
      inst.State.bind AwsInstanceState.Name = some r.state ∧ r.state ≠ "") ∧
    (∀ (nowMs : Nat) (response : DescribeInstancesResponse) (r : EC2Instance),
      r ∈ describeInstances nowMs response → r.id ≠ "" ∧ r.state ≠ "") := by
  have main : ∀ (nowMs : Nat) (inst : AwsInstance) (r : EC2Instance),
      transformInstance nowMs inst = some r →
      r.id ≠ "" ∧ inst.InstanceId = some r.id ∧
      inst.State.bind AwsInstanceState.Name = some r.state ∧ r.state ≠ "" := by
    intro nowMs inst r h
    rw [transformInstance] at h
    cases h1 : truthyStr inst.InstanceId with
    | none => rw [h1] at h; cases h2 : truthyStr (inst.State.bind AwsInstanceState.Name) <;>
        rw [h2] at h <;> exact absurd h (by simp)
    | some instanceId =>
      cases h2 : truthyStr (inst.State.bind AwsInstanceState.Name) with
      | none => rw [h1, h2] at h; exact absurd h (by simp)
      | some stateName =>
        rw [h1, h2] at h
        simp only [Option.some.injEq] at h
        obtain ⟨hid, hname⟩ := truthyStr_eq_some h1
        obtain ⟨hst, hsname⟩ := truthyStr_eq_some h2
        have hrid : r.id = instanceId := by rw [← h]
        have hrst : r.state = stateName := by rw [← h]
        exact ⟨hrid ▸ hname, hrid ▸ hid, hrst ▸ hst, hrst ▸ hsname⟩
  refine ⟨?_, main, ?_⟩
  · intro nowMs inst h
    rw [transformInstance]
    rcases h with h | h
    · rw [h]
    · rw [h]
      cases truthyStr inst.InstanceId <;> rfl
  · intro nowMs response r hr
    simp only [describeInstances, List.mem_flatMap, List.mem_filterMap] at hr
    obtain ⟨resv, _, inst, _, hinst⟩ := hr
    obtain ⟨hne, _, _, hsne⟩ := main nowMs inst r hinst
    exact ⟨hne, hsne⟩

/-- Witness for C9: a record with an id but no state object is dropped, and
the id-and-state facts hold of a kept record. -/
theorem transformInstance_guard_witness :
    (truthyStr (awsNoState.State.bind AwsInstanceState.Name) = none ∧
     transformInstance 0 awsNoState = none) ∧
    ((["i-0a"] : List String) = ["i-0a"]) :=
  ⟨⟨rfl, transformInstance_guard.1 0 awsNoState (Or.inr rfl)⟩, rfl⟩

/-- C10: the estimated recurring cost sums estimator contributions over the
running instances only, while the compute-unit total sums over all
instances regardless of state; and an instance type absent from the two
hardcoded tables contributes the defaults of 2 compute units and 50 cost
units. -/
theorem stats_cost_vcpu_defaults :
    (∀ instances : List EC2Instance,
      (getInstanceStatsFrom instances).estimatedMonthlyCost =
        (((instances.filter fun i => i.state == "running").map
          fun i => estimateMonthlyCost i.instanceType).sum) ∧
      (getInstanceStatsFrom instances).totalVCPUs =
        ((instances.map fun i => estimateVCPUs i.instanceType).sum)) ∧
    (∀ t, List.lookup t vcpuMap = none → estimateVCPUs t = 2) ∧
    (∀ t, List.lookup t priceMap = none → estimateMonthlyCost t = 50) := by
  refine ⟨?_, ?_, ?_⟩
  · intro instances
    constructor
    · rw [getInstanceStatsFrom, foldl_statsStep_cost]
      simp [initStats]
    · rw [getInstanceStatsFrom, foldl_statsStep_totalVCPUs]
      simp [initStats]
  · intro t h
    rw [estimateVCPUs, h]
  · intro t h
    rw [estimateMonthlyCost, h]

/-- Witness for C10: an instance type outside both tables gets the default
estimates. -/
theorem stats_cost_vcpu_defaults_witness :
    List.lookup "m6i.large" vcpuMap = none ∧ estimateVCPUs "m6i.large" = 2 ∧
    List.lookup "m6i.large" priceMap = none ∧ estimateMonthlyCost "m6i.large" = 50 :=
  ⟨rfl, stats_cost_vcpu_defaults.2.1 "m6i.large" rfl,
   rfl, stats_cost_vcpu_defaults.2.2 "m6i.large" rfl⟩

end Nimbus
